import Mathlib

/-!
Shallow embedding of the mi-prometheus repository (vmarois/mi-prometheus),
covering the algorithmic problem generators
(`serial_recall_simplified.py`, `manipulation_spatial_not.py`),
the NTM controller (`models/ntm/controller.py`),
the model and problem factories (`model_factory.py`, `problem_factory.py`),
and the coordinate-tensor builder of the relational network
(`models/relational_net/relational_network.py`).

Numpy/torch float32 tensors are modelled as rational-valued tensors with
explicit dimensions; every value written by the code here (0, 1, random bits)
is exactly representable.  Random draws (`np.random.randint`,
`np.random.binomial`) are modelled by passing the drawn values as parameters,
constrained by the support of the distribution.
-/

set_option autoImplicit false

namespace MiPrometheus

/-- A 2-d numpy/torch tensor: explicit dimensions and an entry function.
Entries outside the dimensions are irrelevant junk. -/
structure Tensor2 where
  dim0 : ℕ
  dim1 : ℕ
  entry : ℕ → ℕ → ℚ

/-- A 3-d numpy/torch tensor: explicit dimensions and an entry function. -/
structure Tensor3 where
  dim0 : ℕ
  dim1 : ℕ
  dim2 : ℕ
  entry : ℕ → ℕ → ℕ → ℚ

/-- Model of `np.zeros([d0, d1])` (or `torch.zeros`). -/
def Tensor2.zeros (d0 d1 : ℕ) : Tensor2 :=
  ⟨d0, d1, fun _ _ => 0⟩

/-- Model of `np.zeros([d0, d1, d2])`. -/
def Tensor3.zeros (d0 d1 d2 : ℕ) : Tensor3 :=
  ⟨d0, d1, d2, fun _ _ _ => 0⟩

/-- Model of a numpy basic-slicing assignment `t[sel] = v`: entries inside the
bounds of the tensor selected by `p` are replaced by `v`, all others are kept. -/
def Tensor2.setSlice (t : Tensor2) (p : ℕ → ℕ → Prop) [∀ b i, Decidable (p b i)]
    (v : ℕ → ℕ → ℚ) : Tensor2 :=
  ⟨t.dim0, t.dim1, fun b i =>
    if b < t.dim0 ∧ i < t.dim1 ∧ p b i then v b i else t.entry b i⟩

/-- Model of a numpy basic-slicing assignment `t[sel] = v` on a 3-d tensor. -/
def Tensor3.setSlice (t : Tensor3) (p : ℕ → ℕ → ℕ → Prop)
    [∀ b i j, Decidable (p b i j)] (v : ℕ → ℕ → ℕ → ℚ) : Tensor3 :=
  ⟨t.dim0, t.dim1, t.dim2, fun b i j =>
    if b < t.dim0 ∧ i < t.dim1 ∧ j < t.dim2 ∧ p b i j then v b i j else t.entry b i j⟩

/-- Model of `np.logical_not` on a float entry (nonzero ↦ False ↦ 0.0,
zero ↦ True ↦ 1.0, as assigned into a float array). -/
def np_logical_not (q : ℚ) : ℚ :=
  if q = 0 then 1 else 0

/-- The attributes of an algorithmic seq-to-seq problem instance that the
generators under `src/problems/seq_to_seq/algorithmic/` read: `batch_size`,
`control_bits`, `data_bits`, `min_sequence_length`, `max_sequence_length` and
`bias` (they are extracted from the parameter dictionary by the parent class
`AlgorithmicSeqToSeqProblem`). -/
structure AlgSeqProblem where
  batch_size : ℕ
  control_bits : ℕ
  data_bits : ℕ
  min_sequence_length : ℕ
  max_sequence_length : ℕ
  bias : ℚ

/-- Support of the sequence-length draw
`np.random.randint(self.min_sequence_length, self.max_sequence_length + 1)`:
`np.random.randint(low, high)` returns an integer in `[low, high)`. -/
def validSeqLength (s : AlgSeqProblem) (L : ℕ) : Prop :=
  s.min_sequence_length ≤ L ∧ L < s.max_sequence_length + 1

/-- Support of the data draw
`np.random.binomial(1, self.bias, (batch_size, seq_length, data_bits))`:
every entry is 0 or 1. -/
def validBitSeq (bit_seq : ℕ → ℕ → ℕ → ℚ) : Prop :=
  ∀ b t j, bit_seq b t j = 0 ∨ bit_seq b t j = 1

/-- Model of `SerialRecallSimplified.generate_batch`, with the two random
draws (`seq_length` and `bit_seq`) passed as parameters.  Follows the numpy
statements of the source line by line:
`inputs = np.zeros([B, 2*L, C+D])`; `inputs[:, L:, 0] = 1`;
`inputs[:, :L, C:C+D] = bit_seq`;
`targets = np.zeros([B, 2*L, D])`; `targets[:, L:, :] = bit_seq`;
`mask = torch.zeros([B, 2*L])`; `mask[:, L:] = 1`.
Returns `(inputs, targets, mask, seq_length)` (the sequence length is carried
in the returned `AlgSeqAuxTuple`). -/
def SerialRecallSimplified.generate_batch (s : AlgSeqProblem) (seq_length : ℕ)
    (bit_seq : ℕ → ℕ → ℕ → ℚ) : Tensor3 × Tensor3 × Tensor2 × ℕ :=
  let B := s.batch_size
  let C := s.control_bits
  let D := s.data_bits
  let L := seq_length
  let inputs :=
    ((Tensor3.zeros B (2 * L) (C + D)).setSlice
        (fun _ t j => L ≤ t ∧ j = 0) (fun _ _ _ => 1)).setSlice
      (fun _ t j => t < L ∧ C ≤ j ∧ j < C + D) (fun b t j => bit_seq b t (j - C))
  let targets :=
    (Tensor3.zeros B (2 * L) D).setSlice
      (fun _ t _ => L ≤ t) (fun b t j => bit_seq b (t - L) j)
  let mask :=
    (Tensor2.zeros B (2 * L)).setSlice (fun _ t => L ≤ t) (fun _ _ => 1)
  (inputs, targets, mask, L)

/-- Model of `SerialRecallSimplified.set_max_length`: it assigns
`self.max_sequence_length = max_length` and touches nothing else. -/
def SerialRecallSimplified.set_max_length (s : AlgSeqProblem) (max_length : ℕ) :
    AlgSeqProblem :=
  { s with max_sequence_length := max_length }

/-- Model of `ManipulationSpatialNot.generate_batch`, with the two random
draws passed as parameters.  Follows the numpy statements of the source:
`inputs = np.zeros([B, 2*L+2, C+D])`; `inputs[:, 0, 0] = 1`;
`inputs[:, 1:L+1, C:C+D] = bit_seq`; `inputs[:, L+1, 1] = 1`;
`targets = np.zeros([B, 2*L+2, D])`;
`targets[:, L+2:, :] = np.logical_not(bit_seq)`;
`mask = torch.zeros([B, 2*L+2])`; `mask[:, L+2:] = 1`. -/
def ManipulationSpatialNot.generate_batch (s : AlgSeqProblem) (seq_length : ℕ)
    (bit_seq : ℕ → ℕ → ℕ → ℚ) : Tensor3 × Tensor3 × Tensor2 × ℕ :=
  let B := s.batch_size
  let C := s.control_bits
  let D := s.data_bits
  let L := seq_length
  let inputs :=
    (((Tensor3.zeros B (2 * L + 2) (C + D)).setSlice
          (fun _ t j => t = 0 ∧ j = 0) (fun _ _ _ => 1)).setSlice
        (fun _ t j => 1 ≤ t ∧ t < L + 1 ∧ C ≤ j ∧ j < C + D)
        (fun b t j => bit_seq b (t - 1) (j - C))).setSlice
      (fun _ t j => t = L + 1 ∧ j = 1) (fun _ _ _ => 1)
  let targets :=
    (Tensor3.zeros B (2 * L + 2) D).setSlice
      (fun _ t _ => L + 2 ≤ t)
      (fun b t j => np_logical_not (bit_seq b (t - (L + 2)) j))
  let mask :=
    (Tensor2.zeros B (2 * L + 2)).setSlice (fun _ t => L + 2 ≤ t) (fun _ _ => 1)
  (inputs, targets, mask, L)

/-- Model of `ManipulationSpatialNot.set_max_length`: it assigns
`self.max_sequence_length = max_length` and touches nothing else. -/
def ManipulationSpatialNot.set_max_length (s : AlgSeqProblem) (max_length : ℕ) :
    AlgSeqProblem :=
  { s with max_sequence_length := max_length }

/-- Concrete problem instance used by witnesses: batch_size 2, 1 control bit,
2 data bits, sequence lengths between 1 and 3, bias 1/2. -/
def sampleProblem : AlgSeqProblem :=
  ⟨2, 1, 2, 1, 3, 1/2⟩

/-- Concrete problem instance satisfying the `ManipulationSpatialNot`
constructor asserts (at least 2 control bits, at least 2 data bits). -/
def sampleProblem2 : AlgSeqProblem :=
  ⟨2, 2, 3, 1, 3, 1/2⟩

/-- Concrete all-ones bit sequence used by witnesses. -/
def sampleBits : ℕ → ℕ → ℕ → ℚ :=
  fun _ _ _ => 1

/-- C2: for every `SerialRecallSimplified` instance, `generate_batch` returns
an input tensor of shape `[B, 2*L, C+D]`, a target tensor of shape
`[B, 2*L, D]` and a mask of shape `[B, 2*L]`, for a single sequence length
`L` with `min_sequence_length ≤ L ≤ max_sequence_length` shared by the whole
batch (the length returned in the aux tuple). -/
theorem C2_serial_recall_shapes (s : AlgSeqProblem) (L : ℕ)
    (bit_seq : ℕ → ℕ → ℕ → ℚ) (hL : validSeqLength s L) :
    (SerialRecallSimplified.generate_batch s L bit_seq).1.dim0 = s.batch_size ∧
    (SerialRecallSimplified.generate_batch s L bit_seq).1.dim1 = 2 * L ∧
    (SerialRecallSimplified.generate_batch s L bit_seq).1.dim2 =
      s.control_bits + s.data_bits ∧
    (SerialRecallSimplified.generate_batch s L bit_seq).2.1.dim0 = s.batch_size ∧
    (SerialRecallSimplified.generate_batch s L bit_seq).2.1.dim1 = 2 * L ∧
    (SerialRecallSimplified.generate_batch s L bit_seq).2.1.dim2 = s.data_bits ∧
    (SerialRecallSimplified.generate_batch s L bit_seq).2.2.1.dim0 = s.batch_size ∧
    (SerialRecallSimplified.generate_batch s L bit_seq).2.2.1.dim1 = 2 * L ∧
    (SerialRecallSimplified.generate_batch s L bit_seq).2.2.2 = L ∧
    s.min_sequence_length ≤ L ∧ L ≤ s.max_sequence_length := by
  have h2 := hL.2
  exact ⟨rfl, rfl, rfl, rfl, rfl, rfl, rfl, rfl, rfl, hL.1, by omega⟩

/-- Witness for C2 at the concrete instance `sampleProblem`, length 2. -/
theorem C2_serial_recall_shapes_witness :
    validSeqLength sampleProblem 2 ∧
    ((SerialRecallSimplified.generate_batch sampleProblem 2 sampleBits).1.dim0 =
        sampleProblem.batch_size ∧
      (SerialRecallSimplified.generate_batch sampleProblem 2 sampleBits).1.dim1 = 2 * 2 ∧
      (SerialRecallSimplified.generate_batch sampleProblem 2 sampleBits).1.dim2 =
        sampleProblem.control_bits + sampleProblem.data_bits ∧
      (SerialRecallSimplified.generate_batch sampleProblem 2 sampleBits).2.1.dim0 =
        sampleProblem.batch_size ∧
      (SerialRecallSimplified.generate_batch sampleProblem 2 sampleBits).2.1.dim1 = 2 * 2 ∧
      (SerialRecallSimplified.generate_batch sampleProblem 2 sampleBits).2.1.dim2 =
        sampleProblem.data_bits ∧
      (SerialRecallSimplified.generate_batch sampleProblem 2 sampleBits).2.2.1.dim0 =
        sampleProblem.batch_size ∧
      (SerialRecallSimplified.generate_batch sampleProblem 2 sampleBits).2.2.1.dim1 = 2 * 2 ∧
      (SerialRecallSimplified.generate_batch sampleProblem 2 sampleBits).2.2.2 = 2 ∧
      sampleProblem.min_sequence_length ≤ 2 ∧
      2 ≤ sampleProblem.max_sequence_length) :=
  ⟨by simp [validSeqLength, sampleProblem],
    C2_serial_recall_shapes sampleProblem 2 sampleBits
      (by simp [validSeqLength, sampleProblem])⟩

/-- C3: the mask of a generated batch is determined solely by the drawn
length `L`: for `SerialRecallSimplified` the mask entry at `(b, t)` is 1
exactly when `L ≤ t` (total length `2*L`), and for `ManipulationSpatialNot`
it is 1 exactly when `L + 2 ≤ t` (total length `2*L + 2`). -/
theorem C3_mask_fixed_logic (s : AlgSeqProblem) (L : ℕ)
    (bit_seq : ℕ → ℕ → ℕ → ℚ) (b t : ℕ) (hb : b < s.batch_size) :
    (t < 2 * L →
      ((SerialRecallSimplified.generate_batch s L bit_seq).2.2.1.entry b t = 1 ↔
        L ≤ t)) ∧
    (t < 2 * L + 2 →
      ((ManipulationSpatialNot.generate_batch s L bit_seq).2.2.1.entry b t = 1 ↔
        L + 2 ≤ t)) := by
  constructor
  · intro ht
    show (if b < s.batch_size ∧ t < 2 * L ∧ L ≤ t then (1 : ℚ) else 0) = 1 ↔ L ≤ t
    by_cases hm : L ≤ t
    · rw [if_pos ⟨hb, ht, hm⟩]
      simp [hm]
    · rw [if_neg fun h => hm h.2.2]
      norm_num [hm]
  · intro ht
    show (if b < s.batch_size ∧ t < 2 * L + 2 ∧ L + 2 ≤ t then (1 : ℚ) else 0) = 1 ↔
      L + 2 ≤ t
    by_cases hm : L + 2 ≤ t
    · rw [if_pos ⟨hb, ht, hm⟩]
      simp [hm]
    · rw [if_neg fun h => hm h.2.2]
      norm_num [hm]

/-- Witness for C3 at the concrete instance `sampleProblem`, length 2,
batch index 0, time step 3. -/
theorem C3_mask_fixed_logic_witness :
    (0 < sampleProblem.batch_size) ∧
    (3 < 2 * 2 →
      ((SerialRecallSimplified.generate_batch sampleProblem 2 sampleBits).2.2.1.entry 0 3 = 1 ↔
        2 ≤ 3)) ∧
    (3 < 2 * 2 + 2 →
      ((ManipulationSpatialNot.generate_batch sampleProblem 2 sampleBits).2.2.1.entry 0 3 = 1 ↔
        2 + 2 ≤ 3)) :=
  ⟨by simp [sampleProblem],
    C3_mask_fixed_logic sampleProblem 2 sampleBits 0 3 (by simp [sampleProblem])⟩

/-- C4: `set_max_length L` (on either problem class) sets
`max_sequence_length` to `L`, leaves every other attribute unchanged, and the
sequence-length draw of every later `generate_batch` call
(`np.random.randint(min_sequence_length, max_sequence_length + 1)`) then
ranges exactly over `[min_sequence_length, L]`. -/
theorem C4_set_max_length_frame (s : AlgSeqProblem) (L : ℕ) :
    (SerialRecallSimplified.set_max_length s L).max_sequence_length = L ∧
    (SerialRecallSimplified.set_max_length s L).min_sequence_length =
      s.min_sequence_length ∧
    (SerialRecallSimplified.set_max_length s L).batch_size = s.batch_size ∧
    (SerialRecallSimplified.set_max_length s L).control_bits = s.control_bits ∧
    (SerialRecallSimplified.set_max_length s L).data_bits = s.data_bits ∧
    (SerialRecallSimplified.set_max_length s L).bias = s.bias ∧
    (∀ v, validSeqLength (SerialRecallSimplified.set_max_length s L) v ↔
      s.min_sequence_length ≤ v ∧ v ≤ L) ∧
    (ManipulationSpatialNot.set_max_length s L).max_sequence_length = L ∧
    (ManipulationSpatialNot.set_max_length s L).min_sequence_length =
      s.min_sequence_length ∧
    (ManipulationSpatialNot.set_max_length s L).batch_size = s.batch_size ∧
    (ManipulationSpatialNot.set_max_length s L).control_bits = s.control_bits ∧
    (ManipulationSpatialNot.set_max_length s L).data_bits = s.data_bits ∧
    (ManipulationSpatialNot.set_max_length s L).bias = s.bias ∧
    (∀ v, validSeqLength (ManipulationSpatialNot.set_max_length s L) v ↔
      s.min_sequence_length ≤ v ∧ v ≤ L) := by
  refine ⟨rfl, rfl, rfl, rfl, rfl, rfl, fun v => ?_, rfl, rfl, rfl, rfl, rfl, rfl,
    fun v => ?_⟩ <;>
  · simp only [validSeqLength, SerialRecallSimplified.set_max_length,
      ManipulationSpatialNot.set_max_length]
    omega

/-- C8: round-trip of `SerialRecallSimplified`: during the recall phase the
target reproduces the stored data bits exactly
(`targets[b, L+t, j] = inputs[b, t, C+j]` for `t < L`), and the target is
all-zero at every position before `L`. -/
theorem C8_serial_recall_roundtrip (s : AlgSeqProblem) (L : ℕ)
    (bit_seq : ℕ → ℕ → ℕ → ℚ) (b t j : ℕ) (hb : b < s.batch_size)
    (ht : t < L) (hj : j < s.data_bits) :
    (SerialRecallSimplified.generate_batch s L bit_seq).2.1.entry b (L + t) j =
      (SerialRecallSimplified.generate_batch s L bit_seq).1.entry b t
        (s.control_bits + j) ∧
    (SerialRecallSimplified.generate_batch s L bit_seq).2.1.entry b t j = 0 := by
  constructor
  · simp only [SerialRecallSimplified.generate_batch, Tensor3.setSlice, Tensor3.zeros]
    rw [if_pos ⟨hb, by omega, hj, by omega⟩,
      if_pos ⟨hb, by omega, by omega, ht, by omega, by omega⟩]
    simp only [Nat.add_sub_cancel_left]
  · simp only [SerialRecallSimplified.generate_batch, Tensor3.setSlice, Tensor3.zeros]
    rw [if_neg fun h => by omega]

/-- Witness for C8 at the concrete instance `sampleProblem`, length 2,
batch index 1, time step 0, data bit 1. -/
theorem C8_serial_recall_roundtrip_witness :
    (1 < sampleProblem.batch_size ∧ 0 < 2 ∧ 1 < sampleProblem.data_bits) ∧
    ((SerialRecallSimplified.generate_batch sampleProblem 2 sampleBits).2.1.entry 1 (2 + 0) 1 =
      (SerialRecallSimplified.generate_batch sampleProblem 2 sampleBits).1.entry 1 0
        (sampleProblem.control_bits + 1) ∧
    (SerialRecallSimplified.generate_batch sampleProblem 2 sampleBits).2.1.entry 1 0 1 = 0) :=
  ⟨by simp [sampleProblem],
    C8_serial_recall_roundtrip sampleProblem 2 sampleBits 1 0 1
      (by simp [sampleProblem]) (by omega) (by simp [sampleProblem])⟩

/-- C9: `ManipulationSpatialNot` targets are the element-wise logical
negation of the stored bits: `targets[b, L+2+t, j] = 1 - inputs[b, t+1, C+j]`
for `t < L` (the data bit placed at input time step `t+1`), and the target is
all-zero at every position before `L + 2`. -/
theorem C9_spatial_not_inversion (s : AlgSeqProblem) (L : ℕ)
    (bit_seq : ℕ → ℕ → ℕ → ℚ) (b t j : ℕ) (hb : b < s.batch_size)
    (ht : t < L) (hj : j < s.data_bits) (hbits : validBitSeq bit_seq) :
    (ManipulationSpatialNot.generate_batch s L bit_seq).2.1.entry b (L + 2 + t) j =
      1 - (ManipulationSpatialNot.generate_batch s L bit_seq).1.entry b (t + 1)
        (s.control_bits + j) ∧
    (∀ t2, t2 < L + 2 →
      (ManipulationSpatialNot.generate_batch s L bit_seq).2.1.entry b t2 j = 0) := by
  constructor
  · simp only [ManipulationSpatialNot.generate_batch, Tensor3.setSlice, Tensor3.zeros]
    rw [if_pos ⟨hb, by omega, hj, by omega⟩,
      if_neg fun h => by omega,
      if_pos ⟨hb, by omega, by omega, by omega, by omega, by omega, by omega⟩]
    simp only [Nat.add_sub_cancel_left, Nat.add_sub_cancel]
    rcases hbits b t j with h | h <;> simp [np_logical_not, h]
  · intro t2 ht2
    simp only [ManipulationSpatialNot.generate_batch, Tensor3.setSlice, Tensor3.zeros]
    rw [if_neg fun h => by omega]

/-- Witness for C9 at the concrete instance `sampleProblem2`, length 2,
batch index 0, time step 1, data bit 2, all-ones bit sequence. -/
theorem C9_spatial_not_inversion_witness :
    (0 < sampleProblem2.batch_size ∧ 1 < 2 ∧ 2 < sampleProblem2.data_bits ∧
      validBitSeq sampleBits) ∧
    ((ManipulationSpatialNot.generate_batch sampleProblem2 2 sampleBits).2.1.entry 0 (2 + 2 + 1) 2 =
      1 - (ManipulationSpatialNot.generate_batch sampleProblem2 2 sampleBits).1.entry 0 (1 + 1)
        (sampleProblem2.control_bits + 2) ∧
    (∀ t2, t2 < 2 + 2 →
      (ManipulationSpatialNot.generate_batch sampleProblem2 2 sampleBits).2.1.entry 0 t2 2 = 0)) :=
  ⟨⟨by simp [sampleProblem2], by omega, by simp [sampleProblem2],
      fun _ _ _ => Or.inr rfl⟩,
    C9_spatial_not_inversion sampleProblem2 2 sampleBits 0 1 2
      (by simp [sampleProblem2]) (by omega) (by simp [sampleProblem2])
      (fun _ _ _ => Or.inr rfl)⟩

/-- C7: structure of a `ManipulationSpatialNot` batch: the input has shape
`[B, 2*L+2, C+D]` with the start (memorization) marker `inputs[b, 0, 0] = 1`,
the end (recall) marker `inputs[b, L+1, 1] = 1`, and the `L` random data
items at time steps `1 .. L` in columns `C .. C+D-1`; the target has shape
`[B, 2*L+2, D]` and the mask has shape `[B, 2*L+2]`.  The hypotheses
`2 ≤ control_bits` and `2 ≤ data_bits` are the asserts of the constructor. -/
theorem C7_spatial_not_batch_structure (s : AlgSeqProblem) (L : ℕ)
    (bit_seq : ℕ → ℕ → ℕ → ℚ) (b : ℕ) (hC : 2 ≤ s.control_bits)
    (hD : 2 ≤ s.data_bits) (hb : b < s.batch_size) :
    (ManipulationSpatialNot.generate_batch s L bit_seq).1.dim0 = s.batch_size ∧
    (ManipulationSpatialNot.generate_batch s L bit_seq).1.dim1 = 2 * L + 2 ∧
    (ManipulationSpatialNot.generate_batch s L bit_seq).1.dim2 =
      s.control_bits + s.data_bits ∧
    (ManipulationSpatialNot.generate_batch s L bit_seq).1.entry b 0 0 = 1 ∧
    (ManipulationSpatialNot.generate_batch s L bit_seq).1.entry b (L + 1) 1 = 1 ∧
    (∀ t j, t < L → j < s.data_bits →
      (ManipulationSpatialNot.generate_batch s L bit_seq).1.entry b (t + 1)
        (s.control_bits + j) = bit_seq b t j) ∧
    (ManipulationSpatialNot.generate_batch s L bit_seq).2.1.dim0 = s.batch_size ∧
    (ManipulationSpatialNot.generate_batch s L bit_seq).2.1.dim1 = 2 * L + 2 ∧
    (ManipulationSpatialNot.generate_batch s L bit_seq).2.1.dim2 = s.data_bits ∧
    (ManipulationSpatialNot.generate_batch s L bit_seq).2.2.1.dim0 = s.batch_size ∧
    (ManipulationSpatialNot.generate_batch s L bit_seq).2.2.1.dim1 = 2 * L + 2 := by
  refine ⟨rfl, rfl, rfl, ?_, ?_, ?_, rfl, rfl, rfl, rfl, rfl⟩
  · simp only [ManipulationSpatialNot.generate_batch, Tensor3.setSlice, Tensor3.zeros]
    rw [if_neg fun h => by omega, if_neg fun h => by omega,
      if_pos ⟨hb, by omega, by omega, by trivial, by trivial⟩]
  · simp only [ManipulationSpatialNot.generate_batch, Tensor3.setSlice, Tensor3.zeros]
    rw [if_pos ⟨hb, by omega, by omega, by trivial, by trivial⟩]
  · intro t j ht hj
    simp only [ManipulationSpatialNot.generate_batch, Tensor3.setSlice, Tensor3.zeros]
    rw [if_neg fun h => by omega,
      if_pos ⟨hb, by omega, by omega, by omega, by omega, by omega, by omega⟩]
    simp only [Nat.add_sub_cancel_left, Nat.add_sub_cancel]

/-- Witness for C7 at the concrete instance `sampleProblem2`, length 2,
batch index 0. -/
theorem C7_spatial_not_batch_structure_witness :
    (2 ≤ sampleProblem2.control_bits ∧ 2 ≤ sampleProblem2.data_bits ∧
      0 < sampleProblem2.batch_size) ∧
    ((ManipulationSpatialNot.generate_batch sampleProblem2 2 sampleBits).1.dim0 =
        sampleProblem2.batch_size ∧
      (ManipulationSpatialNot.generate_batch sampleProblem2 2 sampleBits).1.dim1 = 2 * 2 + 2 ∧
      (ManipulationSpatialNot.generate_batch sampleProblem2 2 sampleBits).1.dim2 =
        sampleProblem2.control_bits + sampleProblem2.data_bits ∧
      (ManipulationSpatialNot.generate_batch sampleProblem2 2 sampleBits).1.entry 0 0 0 = 1 ∧
      (ManipulationSpatialNot.generate_batch sampleProblem2 2 sampleBits).1.entry 0 (2 + 1) 1 = 1 ∧
      (∀ t j, t < 2 → j < sampleProblem2.data_bits →
        (ManipulationSpatialNot.generate_batch sampleProblem2 2 sampleBits).1.entry 0 (t + 1)
          (sampleProblem2.control_bits + j) = sampleBits 0 t j) ∧
      (ManipulationSpatialNot.generate_batch sampleProblem2 2 sampleBits).2.1.dim0 =
        sampleProblem2.batch_size ∧
      (ManipulationSpatialNot.generate_batch sampleProblem2 2 sampleBits).2.1.dim1 = 2 * 2 + 2 ∧
      (ManipulationSpatialNot.generate_batch sampleProblem2 2 sampleBits).2.1.dim2 =
        sampleProblem2.data_bits ∧
      (ManipulationSpatialNot.generate_batch sampleProblem2 2 sampleBits).2.2.1.dim0 =
        sampleProblem2.batch_size ∧
      (ManipulationSpatialNot.generate_batch sampleProblem2 2 sampleBits).2.2.1.dim1 = 2 * 2 + 2) :=
  ⟨by simp [sampleProblem2],
    C7_spatial_not_batch_structure sampleProblem2 2 sampleBits 0
      (by simp [sampleProblem2]) (by simp [sampleProblem2])
      (by simp [sampleProblem2])⟩

/-- Python exceptions raised by the code under study. -/
inductive PyError where
  | valueError
  | keyError
  | nameError
  | importError
  | assertionError
deriving DecidableEq

/-- The NTM model class (`models/ntm/ntm_layer.py` is not part of the studied
sources; the factory only constructs it, so it is modelled as a record of the
parameter dictionary it was constructed from). -/
structure NTM where
  params : List (String × String)
deriving DecidableEq

/-- Model of `ModelFactory.build_model`: if the key `"name"` is absent it raises
`ValueError`; otherwise if the value at `"name"` equals `"ntm_v1"` it returns
`NTM(params)`, else it raises `ValueError`.  The parameter dictionary is
modelled as an association list. -/
def ModelFactory.build_model (params : List (String × String)) :
    Except PyError NTM :=
  match params.lookup "name" with
  | none => .error .valueError
  | some name => if name = "ntm_v1" then .ok ⟨params⟩ else .error .valueError

/-- C5: `ModelFactory.build_model` returns an NTM instance exactly when the
parameter dictionary maps `"name"` to `"ntm_v1"`, and raises `ValueError` in
every other case (key absent or mapped to any other value). -/
theorem C5_model_factory_dispatch (params : List (String × String)) :
    (params.lookup "name" = some "ntm_v1" →
      ModelFactory.build_model params = .ok ⟨params⟩) ∧
    (params.lookup "name" ≠ some "ntm_v1" →
      ModelFactory.build_model params = .error .valueError) := by
  constructor
  · intro h
    simp [ModelFactory.build_model, h]
  · intro h
    cases hl : params.lookup "name" with
    | none => simp [ModelFactory.build_model, hl]
    | some name =>
      have hne : name ≠ "ntm_v1" := fun he => h (by rw [hl, he])
      simp [ModelFactory.build_model, hl, hne]

/-- Witness for C5: a dictionary with `name = ntm_v1` yields the NTM, and a
dictionary without the key raises `ValueError`. -/
theorem C5_model_factory_dispatch_witness :
    (([("name", "ntm_v1")] : List (String × String)).lookup "name" =
        some "ntm_v1" ∧
      ModelFactory.build_model [("name", "ntm_v1")] =
        .ok ⟨[("name", "ntm_v1")]⟩) ∧
    (([("batch_size", "1")] : List (String × String)).lookup "name" ≠
        some "ntm_v1" ∧
      ModelFactory.build_model [("batch_size", "1")] = .error .valueError) :=
  ⟨⟨by decide, (C5_model_factory_dispatch [("name", "ntm_v1")]).1 (by decide)⟩,
    ⟨by decide, (C5_model_factory_dispatch [("batch_size", "1")]).2 (by decide)⟩⟩

/-- Model of `os.path.basename`: the part of the path after the last `/`. -/
def os_path_basename (s : String) : String :=
  (s.splitOn "/").getLastD s

/-- A problem instance as produced by the problem factory: the looked-up class
name applied to the parameter dictionary (the constructors of the problem
classes are outside the code of the factory and are modelled as record
formation). -/
structure ProblemInstance where
  class_name : String
  params : List (String × String)
deriving DecidableEq

/-- Model of `ProblemFactory.build_problem`.  The import machinery of the
interpreter
(the `glob` over `problems/**/*.py`, `sys.path`, `__import__` and
`inspect.getmembers`) is modelled by a registry mapping each importable
module name to the list of class names defined in that module.  The factory
raises `KeyError` when `"name"` is absent; otherwise it takes the basename of
the value at `"name"`, imports that module (`ImportError` when it does not
exist),
asserts the module defines exactly one class (`AssertionError` otherwise) and
returns that class constructed from `params`. -/
def ProblemFactory.build_problem (registry : List (String × List String))
    (params : List (String × String)) : Except PyError ProblemInstance :=
  match params.lookup "name" with
  | none => .error .keyError
  | some v =>
    let name := os_path_basename v
    match registry.lookup name with
    | none => .error .importError
    | some clsmembers =>
      match clsmembers with
      | [class_name] => .ok ⟨class_name, params⟩
      | _ => .error .assertionError

/-- C6: when the parameter dictionary has no `"name"` key,
`ProblemFactory.build_problem` raises `KeyError` and returns no problem
instance; when `"name"` is present and resolves (after `os.path.basename`) to
a module defining exactly one class, an instance of that class constructed
from `params` is returned. -/
theorem C6_problem_factory_dispatch (registry : List (String × List String))
    (params : List (String × String)) :
    (params.lookup "name" = none →
      ProblemFactory.build_problem registry params = .error .keyError ∧
      ∀ inst, ProblemFactory.build_problem registry params ≠ .ok inst) ∧
    (∀ v cls, params.lookup "name" = some v →
      registry.lookup (os_path_basename v) = some [cls] →
      ProblemFactory.build_problem registry params = .ok ⟨cls, params⟩) := by
  constructor
  · intro h
    have he : ProblemFactory.build_problem registry params = .error .keyError := by
      simp [ProblemFactory.build_problem, h]
    exact ⟨he, fun inst hok => by rw [he] at hok; exact Except.noConfusion hok⟩
  · intro v cls hv hreg
    simp [ProblemFactory.build_problem, hv, hreg]

/-- The module registry used by the C6 witness: one importable module
(keyed by the basename of the problem name) defining exactly one class. -/
def sampleRegistry : List (String × List String) :=
  [(os_path_basename "serial_recall_simplified", ["SerialRecallSimplified"])]

/-- Witness for C6: an empty dictionary raises `KeyError`; a dictionary whose
name resolves in a one-class module registry yields an instance of that class. -/
theorem C6_problem_factory_dispatch_witness :
    (([] : List (String × String)).lookup "name" = none ∧
      ProblemFactory.build_problem sampleRegistry [] = .error .keyError) ∧
    (([("name", "serial_recall_simplified")] : List (String × String)).lookup
        "name" = some "serial_recall_simplified" ∧
      sampleRegistry.lookup (os_path_basename "serial_recall_simplified") =
        some ["SerialRecallSimplified"] ∧
      ProblemFactory.build_problem sampleRegistry
        [("name", "serial_recall_simplified")] =
        .ok ⟨"SerialRecallSimplified", [("name", "serial_recall_simplified")]⟩) :=
  ⟨⟨rfl, ((C6_problem_factory_dispatch sampleRegistry []).1 rfl).1⟩,
    ⟨by decide, by simp [sampleRegistry, List.lookup],
      (C6_problem_factory_dispatch sampleRegistry
        [("name", "serial_recall_simplified")]).2
        "serial_recall_simplified" "SerialRecallSimplified" (by decide)
        (by simp [sampleRegistry, List.lookup])⟩⟩

/-- A 4-d tensor (batch of stacked coordinate maps / feature maps). -/
structure Tensor4 where
  dim0 : ℕ
  dim1 : ℕ
  dim2 : ℕ
  dim3 : ℕ
  entry : ℕ → ℕ → ℕ → ℕ → ℚ

/-- Model of `torch.linspace(a, b, n)`: `n` evenly spaced points from `a`
to `b` (for `n = 1` the rational division by `n - 1 = 0` yields 0, giving the
single point `a`). -/
def torch_linspace (a b : ℚ) (n : ℕ) : ℕ → ℚ :=
  fun i => a + (b - a) * i / (n - 1 : ℕ)

/-- The names bound at module level in
`models/relational_net/relational_network.py`: the five imports
(`ConvInputModel`, `PairwiseRelationNetwork`, `SumOfPairsAnalysisNetwork`,
`Model`, `AppState`), the two module imports (`torch`, `np`), the module
dunder `__author__`, and the class itself. -/
def relationalNetworkGlobals : List String :=
  ["ConvInputModel", "PairwiseRelationNetwork", "SumOfPairsAnalysisNetwork",
   "torch", "np", "Model", "AppState", "__author__", "RelationalNetwork"]

/-- The local names bound inside `RelationalNetwork.build_coord_tensor` by the
time of its final statement: the two arguments and the intermediates. -/
def buildCoordTensorLocals : List String :=
  ["self", "batch_size", "d", "coords", "x", "y", "ct"]

/-- A representative list of Python builtin names (none of which binds
`app_state`). -/
def pythonBuiltins : List String :=
  ["print", "len", "range", "super", "isinstance", "type", "getattr"]

/-- Model of a Python name lookup inside `build_coord_tensor`: local scope,
then module globals, then builtins; an unbound name raises `NameError`. -/
def resolveName (n : String) : Except PyError Unit :=
  if n ∈ buildCoordTensorLocals ∨ n ∈ relationalNetworkGlobals ∨
      n ∈ pythonBuiltins then
    .ok ()
  else
    .error .nameError

/-- Model of `RelationalNetwork.build_coord_tensor`.  The tensor computation
(`linspace`, `unsqueeze`/`repeat`, `stack`, batch broadcast) follows the
source; the final statement `ct = ct.type(app_state.dtype)` evaluates the name
`app_state`, which is modelled by `resolveName "app_state"`. -/
def RelationalNetwork.build_coord_tensor (batch_size d : ℕ) :
    Except PyError Tensor4 :=
  let coords := torch_linspace (-(1 / 2)) (1 / 2) d
  let x := fun (_i j : ℕ) => coords j
  let y := fun (i _j : ℕ) => coords i
  let ct := fun (c i j : ℕ) => if c = 0 then x i j else y i j
  match resolveName "app_state" with
  | .error e => .error e
  | .ok _ => .ok ⟨batch_size, 2, d, d, fun _b c i j => ct c i j⟩

/-- Model of `RelationalNetwork.forward` up to its call of
`build_coord_tensor`.  The CNN encoder (`ConvInputModel`) and the pair/sum
networks live in modules outside the studied sources and the pair-forming
steps 3 to 6 are unreachable, so they are taken as opaque parameters
(`cnn_model` and `steps3to6`). -/
def RelationalNetwork.forward (cnn_model : Tensor4 → Tensor4)
    (steps3to6 : Tensor4 → Tensor4 → Tensor2 → Tensor2)
    (images : Tensor4) (questions : Tensor2) : Except PyError Tensor2 :=
  let feature_maps := cnn_model images
  let batch_size := feature_maps.dim0
  let d := feature_maps.dim2
  match RelationalNetwork.build_coord_tensor batch_size d with
  | .error e => .error e
  | .ok ct => .ok (steps3to6 feature_maps ct questions)

/-- C10: every call of `RelationalNetwork.build_coord_tensor` raises
`NameError` (the name `app_state` used for the final dtype cast is bound
nowhere in scope), so no coordinate tensor is ever returned, and every call
of `RelationalNetwork.forward` (which invokes it) raises `NameError` too. -/
theorem C10_build_coord_tensor_name_error :
    (∀ batch_size d, RelationalNetwork.build_coord_tensor batch_size d =
      .error .nameError) ∧
    (∀ cnn_model steps3to6 images questions,
      RelationalNetwork.forward cnn_model steps3to6 images questions =
        .error .nameError) := by
  have hres : resolveName "app_state" = .error .nameError := by
    simp only [resolveName, buildCoordTensorLocals, relationalNetworkGlobals,
      pythonBuiltins]
    rw [if_neg (by decide)]
  have hb : ∀ batch_size d,
      RelationalNetwork.build_coord_tensor batch_size d = .error .nameError := by
    intro batch_size d
    simp [RelationalNetwork.build_coord_tensor, hres]
  exact ⟨hb, fun cnn_model steps3to6 images questions => by
    simp [RelationalNetwork.forward, hb]⟩

/-- Model of `torch.sigmoid` / `F.sigmoid` on a real number (float32
arithmetic idealised as real arithmetic). -/
noncomputable def sigmoid (x : ℝ) : ℝ :=
  1 / (1 + Real.exp (-x))

/-- Model of `nn.Linear`: a weight matrix and a bias vector. -/
structure Linear where
  weight : ℕ → ℕ → ℝ
  bias : ℕ → ℝ

/-- Application of an `nn.Linear` layer with `in_features = n` to a vector:
`y[j] = sum_i weight[j][i] * x[i] + bias[j]`. -/
def Linear.apply (l : Linear) (n : ℕ) (x : ℕ → ℝ) : ℕ → ℝ :=
  fun j => (∑ i in Finset.range n, l.weight j i * x i) + l.bias j

/-- Model of `torch.cat((u, v, w), dim=-1)` for vectors of sizes `n1`, `n2`
and the rest: entries `0..n1-1` come from `u`, entries `n1..n1+n2-1` from
`v`, and later entries from `w`. -/
def torch_cat3 (n1 n2 : ℕ) (u v w : ℕ → ℝ) : ℕ → ℝ :=
  fun i =>
    if i < n1 then u i
    else if i < n1 + n2 then v (i - n1)
    else w (i - (n1 + n2))

/-- The NTM `Controller` module (`models/ntm/controller.py`): the dimensions
fixed at construction and the three `nn.Linear` layers `tm_i2o`
(built when `tm_output_units > 0`), `tm_i2s` and `tm_i2u`, each with
`in_features = tm_in_dim + tm_state_units + read_size`. -/
structure Controller where
  tm_in_dim : ℕ
  tm_output_units : ℕ
  tm_state_units : ℕ
  read_size : ℕ
  update_size : ℕ
  tm_i2o : Linear
  tm_i2s : Linear
  tm_i2u : Linear

/-- `tm_ctrl_in_dim = tm_in_dim + tm_state_units + read_size`, the input
dimension of the three linear layers of the controller. -/
def Controller.tm_ctrl_in_dim (c : Controller) : ℕ :=
  c.tm_in_dim + c.tm_state_units + c.read_size

/-- Model of `Controller.forward` (one batch row): concatenate
`(tm_input, tm_state, read_data)`, then `tm_output = sigmoid(tm_i2o(combined))`
when `tm_output_units > 0` (otherwise `tm_output = None`),
`tm_state = sigmoid(tm_i2s(combined))`, and `update_data = tm_i2u(combined)`
with no activation. -/
noncomputable def Controller.forward (c : Controller)
    (tm_input tm_state read_data : ℕ → ℝ) :
    Option (ℕ → ℝ) × (ℕ → ℝ) × (ℕ → ℝ) :=
  let combined := torch_cat3 c.tm_in_dim c.tm_state_units tm_input tm_state read_data
  let tm_output :=
    if 0 < c.tm_output_units then
      some (fun j => sigmoid (c.tm_i2o.apply c.tm_ctrl_in_dim combined j))
    else none
  let new_state := fun j => sigmoid (c.tm_i2s.apply c.tm_ctrl_in_dim combined j)
  let update_data := c.tm_i2u.apply c.tm_ctrl_in_dim combined
  (tm_output, new_state, update_data)

/-- An all-zero linear layer. -/
def zeroLinear : Linear :=
  ⟨fun _ _ => 0, fun _ => 0⟩

/-- A concrete controller: all dimensions 1, all weights and biases 0. -/
def zeroController : Controller :=
  ⟨1, 1, 1, 1, 1, zeroLinear, zeroLinear, zeroLinear⟩

/-- The all-zero input vector. -/
def zvec : ℕ → ℝ :=
  fun _ => 0

/-- Counterexample to C1 as stated: at the all-zero controller with all-zero
inputs, the output of `forward` is not the result of the single linear layer
`tm_i2o` applied to the concatenation (the code additionally applies a
sigmoid, so the output entry is `sigmoid 0 = 1/2`, not `0`). -/
theorem C1_controller_counterexample :
    ¬ ((Controller.forward zeroController zvec zvec zvec).1 =
      some (Linear.apply zeroController.tm_i2o zeroController.tm_ctrl_in_dim
        (torch_cat3 zeroController.tm_in_dim zeroController.tm_state_units
          zvec zvec zvec))) := by
  intro h
  have hstep : (Controller.forward zeroController zvec zvec zvec).1 =
      some (fun j => sigmoid (Linear.apply zeroController.tm_i2o
        zeroController.tm_ctrl_in_dim
        (torch_cat3 zeroController.tm_in_dim zeroController.tm_state_units
          zvec zvec zvec) j)) := rfl
  rw [hstep] at h
  have h0 := congrFun (Option.some.inj h) 0
  have happ : Linear.apply zeroController.tm_i2o zeroController.tm_ctrl_in_dim
      (torch_cat3 zeroController.tm_in_dim zeroController.tm_state_units
        zvec zvec zvec) 0 = 0 := by
    simp [Linear.apply, zeroController, zeroLinear]
  rw [happ] at h0
  have hs : sigmoid 0 = 1 / 2 := by
    norm_num [sigmoid, Real.exp_zero]
  rw [hs] at h0
  norm_num at h0

/-- C1 amended: `Controller.forward` produces the update vector as a single
linear layer applied to the concatenation `[tm_input; tm_state; read_data]`,
while the output and new-state vectors are each a single linear layer applied
to that concatenation followed by an element-wise sigmoid (and the output is
`None` when `tm_output_units = 0`). -/
theorem C1_controller_forward_structure (c : Controller)
    (tm_input tm_state read_data : ℕ → ℝ) (ho : 0 < c.tm_output_units) :
    (c.forward tm_input tm_state read_data).1 =
      some (fun j => sigmoid
        ((∑ i in Finset.range (c.tm_in_dim + c.tm_state_units + c.read_size),
          c.tm_i2o.weight j i *
            (if i < c.tm_in_dim then tm_input i
             else if i < c.tm_in_dim + c.tm_state_units then
               tm_state (i - c.tm_in_dim)
             else read_data (i - (c.tm_in_dim + c.tm_state_units)))) +
          c.tm_i2o.bias j)) ∧
    (c.forward tm_input tm_state read_data).2.1 = (fun j => sigmoid
      ((∑ i in Finset.range (c.tm_in_dim + c.tm_state_units + c.read_size),
        c.tm_i2s.weight j i *
          (if i < c.tm_in_dim then tm_input i
           else if i < c.tm_in_dim + c.tm_state_units then
             tm_state (i - c.tm_in_dim)
           else read_data (i - (c.tm_in_dim + c.tm_state_units)))) +
        c.tm_i2s.bias j)) ∧
    (c.forward tm_input tm_state read_data).2.2 = (fun j =>
      (∑ i in Finset.range (c.tm_in_dim + c.tm_state_units + c.read_size),
        c.tm_i2u.weight j i *
          (if i < c.tm_in_dim then tm_input i
           else if i < c.tm_in_dim + c.tm_state_units then
             tm_state (i - c.tm_in_dim)
           else read_data (i - (c.tm_in_dim + c.tm_state_units)))) +
        c.tm_i2u.bias j) := by
  refine ⟨?_, rfl, rfl⟩
  have hstep : (c.forward tm_input tm_state read_data).1 =
      if 0 < c.tm_output_units then
        some (fun j => sigmoid (c.tm_i2o.apply c.tm_ctrl_in_dim
          (torch_cat3 c.tm_in_dim c.tm_state_units tm_input tm_state read_data) j))
      else none := rfl
  rw [hstep, if_pos ho]
  rfl

/-- Witness for the amended C1 at the concrete all-zero controller. -/
theorem C1_controller_forward_structure_witness :
    0 < zeroController.tm_output_units ∧
    ((Controller.forward zeroController zvec zvec zvec).1 =
      some (fun j => sigmoid
        ((∑ i in Finset.range (zeroController.tm_in_dim +
            zeroController.tm_state_units + zeroController.read_size),
          zeroController.tm_i2o.weight j i *
            (if i < zeroController.tm_in_dim then zvec i
             else if i < zeroController.tm_in_dim + zeroController.tm_state_units then
               zvec (i - zeroController.tm_in_dim)
             else zvec (i - (zeroController.tm_in_dim +
               zeroController.tm_state_units)))) +
          zeroController.tm_i2o.bias j)) ∧
    (Controller.forward zeroController zvec zvec zvec).2.1 = (fun j => sigmoid
      ((∑ i in Finset.range (zeroController.tm_in_dim +
          zeroController.tm_state_units + zeroController.read_size),
        zeroController.tm_i2s.weight j i *
          (if i < zeroController.tm_in_dim then zvec i
           else if i < zeroController.tm_in_dim + zeroController.tm_state_units then
             zvec (i - zeroController.tm_in_dim)
           else zvec (i - (zeroController.tm_in_dim +
             zeroController.tm_state_units)))) +
        zeroController.tm_i2s.bias j)) ∧
    (Controller.forward zeroController zvec zvec zvec).2.2 = (fun j =>
      (∑ i in Finset.range (zeroController.tm_in_dim +
          zeroController.tm_state_units + zeroController.read_size),
        zeroController.tm_i2u.weight j i *
          (if i < zeroController.tm_in_dim then zvec i
           else if i < zeroController.tm_in_dim + zeroController.tm_state_units then
             zvec (i - zeroController.tm_in_dim)
           else zvec (i - (zeroController.tm_in_dim +
             zeroController.tm_state_units)))) +
        zeroController.tm_i2u.bias j)) :=
  ⟨Nat.one_pos,
    C1_controller_forward_structure zeroController zvec zvec zvec Nat.one_pos⟩

end MiPrometheus
